import Mathlib

/-!
Shallow embedding of `brave/components/brave_rewards/browser/rewards_p3a.cc`
(namespace `brave_rewards::p3a`).

The file models both compile-time variants of `ConversionMonitor`:
the desktop variant (`!BUILDFLAG(IS_ANDROID)`) as `DesktopMonitor` and the
constrained/mobile variant (`BUILDFLAG(IS_ANDROID)`) as `MobileMonitor`.
Histogram emissions are collected into an explicit trace (`List Emission`);
`base::Time` and `base::TimeDelta` are modelled as natural numbers of
microseconds, the unit underlying both C++ types.  Each operation takes the
current time explicitly where the C++ reads `base::Time::Now()`.
-/

namespace BraveRewardsP3A

/-- Modelled from the spec: the `PanelTrigger` enumeration is declared in
`rewards_p3a.h`, which is not among the provided sources.  The spec describes
`TriggerKind` as a closed, small enumeration of UI surfaces
("toolbar-button, inline-prompt, other-entry-point"); the `.cc` file
references the designated toolbar kind as `PanelTrigger::kToolbarButton`. -/
inductive PanelTrigger where
  | kInlineTip
  | kToolbarButton
  | kNTP
deriving DecidableEq, Repr

/-- A single histogram emission observed by the external metrics sink:
`linear` for `UMA_HISTOGRAM_EXACT_LINEAR(name, value, exclusiveMax)`,
`enum` for `UMA_HISTOGRAM_ENUMERATION(name, value)` over `PanelTrigger`,
`boolean` for `UMA_HISTOGRAM_BOOLEAN(name, value)`. -/
inductive Emission where
  | linear (histogram : String) (value : Nat) (exclusiveMax : Nat)
  | enum (histogram : String) (value : PanelTrigger)
  | boolean (histogram : String) (value : Bool)
deriving DecidableEq, Repr

def kEnabledSourceHistogramName : String := "Brave.Rewards.EnabledSource"

def kToolbarButtonTriggerHistogramName : String :=
  "Brave.Rewards.ToolbarButtonTrigger"

def kTipsSentHistogramName : String := "Brave.Rewards.TipsSent.2"

def kAutoContributionsStateHistogramName : String :=
  "Brave.Rewards.AutoContributionsState.3"

def kMobileConversionHistogramName : String := "Brave.Rewards.MobileConversion"

def kMobilePanelCountHistogramName : String := "Brave.Rewards.MobilePanelCount"

/-- `constexpr base::TimeDelta kMaxEnabledCauseTriggerTime = base::Minutes(1)`,
in microseconds (`base::TimeDelta` stores microseconds). -/
def kMaxEnabledCauseTriggerTime : Nat := 60000000

/-- `INT_MAX` for the 32-bit `int` used by the histogram macros. -/
def INT_MAX : Nat := 2147483647

def kTipsSentBuckets : List Nat := [0, 1, 3]

def kMobilePanelCountBuckets : List Nat := [5, 10, 50]

/-- Modelled from the spec: the bucket-selection utility
`p3a_utils::RecordToHistogramBucket` lives in `p3a_utils/bucket.h`, which is
not among the provided sources.  The spec fixes its contract as
`BucketIndexFromThresholds(value, ascendingThresholds) -> index` with
"the bucket index is the count of thresholds ≤ value (values below the first
threshold map to bucket 0; values ≥ the last threshold map to the final
bucket)". -/
def bucketIndexFromThresholds (value : Nat) (thresholds : List Nat) : Nat :=
  (thresholds.filter (fun t => t ≤ value)).length

/-- Modelled from the spec: the emission performed by
`p3a_utils::RecordToHistogramBucket(histogram_name, buckets, value)` — the
bucket index from `bucketIndexFromThresholds`, recorded into a linear
histogram whose bucket indices range over `0 .. thresholds.length`. -/
def RecordToHistogramBucket (histogram : String) (thresholds : List Nat)
    (value : Nat) : Emission :=
  Emission.linear histogram (bucketIndexFromThresholds value thresholds)
    (thresholds.length + 1)

/-- `RecordAutoContributionsState(bool ac_enabled)`: records the bool (as 0/1)
into an exact-linear histogram with exclusive maximum 2. -/
def RecordAutoContributionsState (ac_enabled : Bool) : List Emission :=
  [Emission.linear kAutoContributionsStateHistogramName
    (if ac_enabled then 1 else 0) 2]

/-- `RecordTipsSent(size_t tip_count)`: bucket the tip count through
`kTipsSentBuckets`. -/
def RecordTipsSent (tip_count : Nat) : List Emission :=
  [RecordToHistogramBucket kTipsSentHistogramName kTipsSentBuckets tip_count]

/-- `RecordNoWalletCreatedForAllMetrics()`: emits `INT_MAX - 1` into the
tips-sent histogram (exclusive max 3) and into the auto-contributions-state
histogram (exclusive max 2). -/
def RecordNoWalletCreatedForAllMetrics : List Emission :=
  [Emission.linear kTipsSentHistogramName (INT_MAX - 1) 3,
   Emission.linear kAutoContributionsStateHistogramName (INT_MAX - 1) 2]

/-- Desktop-variant `ConversionMonitor` state: the member fields
`std::optional<PanelTrigger> last_trigger_` and
`base::Time last_trigger_time_` (default-constructed `base::Time()` is the
null time, modelled as 0). -/
structure DesktopMonitor where
  last_trigger_ : Option PanelTrigger
  last_trigger_time_ : Nat
deriving DecidableEq, Repr

/-- Desktop constructor: `ConversionMonitor::ConversionMonitor(PrefService*)`
has an empty body, so both members keep their default values. -/
def DesktopMonitor.init : DesktopMonitor :=
  { last_trigger_ := none, last_trigger_time_ := 0 }

/-- Desktop `ConversionMonitor::RecordPanelTrigger(PanelTrigger trigger)`:
if the trigger is the toolbar button, emit 1 into the toolbar-trigger
histogram (exclusive max 2); then set `last_trigger_ = trigger` and
`last_trigger_time_ = base::Time::Now()`. -/
def DesktopMonitor.RecordPanelTrigger (m : DesktopMonitor)
    (trigger : PanelTrigger) (now : Nat) : DesktopMonitor × List Emission :=
  let ems :=
    if trigger = PanelTrigger.kToolbarButton then
      [Emission.linear kToolbarButtonTriggerHistogramName 1 2]
    else
      []
  ({ last_trigger_ := some trigger, last_trigger_time_ := now }, ems)

/-- Desktop `ConversionMonitor::RecordRewardsEnable()`: first emit
`INT_MAX - 1` into the toolbar-trigger histogram (exclusive max 2); then, if
`last_trigger_` is empty or `Now() - last_trigger_time_` exceeds
`kMaxEnabledCauseTriggerTime`, return; otherwise emit `*last_trigger_` into
the enabled-source enum histogram, reset `last_trigger_` and set
`last_trigger_time_` to the null time. -/
def DesktopMonitor.RecordRewardsEnable (m : DesktopMonitor) (now : Nat) :
    DesktopMonitor × List Emission :=
  let suppression :=
    Emission.linear kToolbarButtonTriggerHistogramName (INT_MAX - 1) 2
  match m.last_trigger_ with
  | none => (m, [suppression])
  | some trigger =>
      if now - m.last_trigger_time_ > kMaxEnabledCauseTriggerTime then
        (m, [suppression])
      else
        ({ last_trigger_ := none, last_trigger_time_ := 0 },
         [suppression, Emission.enum kEnabledSourceHistogramName trigger])

/-- The attributed trigger kinds among a trace: the values emitted into the
enabled-source enum histogram, in emission order. -/
def enabledSourceAttributions (ems : List Emission) : List PanelTrigger :=
  ems.filterMap (fun e =>
    match e with
    | Emission.enum h v =>
        if h = kEnabledSourceHistogramName then some v else none
    | _ => none)

/-- Mobile-variant `ConversionMonitor` state.  `prefsEnabled` is the external
preference `prefs::kEnabled` read through `prefs_->GetBoolean`; `weeklySum` is
the rolling 7-day sum held by the external durable counter
`mobile_panel_trigger_count_` (a `WeeklyStorage`, not among the provided
sources; the spec describes it as a durable store with add-delta and
rolling-sum-of-last-7-days operations — modelled here by its current rolling
sum,
which `AddDelta(1)` increments); `mobile_trigger_timer_` is the single-slot
one-shot timer, carrying its firing deadline while a callback is pending. -/
structure MobileMonitor where
  prefsEnabled : Bool
  weeklySum : Nat
  mobile_trigger_timer_ : Option Nat
deriving DecidableEq, Repr

/-- `ConversionMonitor::ReportMobilePanelTriggerCount()`: read the weekly sum;
if it is 0, return without emitting; otherwise bucket it through
`kMobilePanelCountBuckets`. -/
def MobileMonitor.ReportMobilePanelTriggerCount (m : MobileMonitor) :
    List Emission :=
  if m.weeklySum = 0 then
    []
  else
    [RecordToHistogramBucket kMobilePanelCountHistogramName
      kMobilePanelCountBuckets m.weeklySum]

/-- `ConversionMonitor::OnMobileTriggerTimer()`: emit the current value of the
`prefs::kEnabled` preference into the mobile-conversion boolean histogram. -/
def MobileMonitor.OnMobileTriggerTimer (m : MobileMonitor) : List Emission :=
  [Emission.boolean kMobileConversionHistogramName m.prefsEnabled]

/-- Mobile `ConversionMonitor::RecordPanelTrigger(PanelTrigger trigger)`: the
`trigger` argument is unused.  If `prefs::kEnabled` is true, `AddDelta(1)` on
the weekly counter and call `ReportMobilePanelTriggerCount()`; otherwise
(re)start `mobile_trigger_timer_` to fire `kMaxEnabledCauseTriggerTime` from
now (a `base::OneShotTimer`: starting replaces any pending callback). -/
def MobileMonitor.RecordPanelTrigger (m : MobileMonitor)
    (trigger : PanelTrigger) (now : Nat) : MobileMonitor × List Emission :=
  if m.prefsEnabled then
    let m' := { m with weeklySum := m.weeklySum + 1 }
    (m', m'.ReportMobilePanelTriggerCount)
  else
    ({ m with mobile_trigger_timer_ := some (now + kMaxEnabledCauseTriggerTime) },
     [])

/-- Mobile `ConversionMonitor::RecordRewardsEnable()`:
`mobile_trigger_timer_.Stop()` then `OnMobileTriggerTimer()`. -/
def MobileMonitor.RecordRewardsEnable (m : MobileMonitor) :
    MobileMonitor × List Emission :=
  let m' := { m with mobile_trigger_timer_ := none }
  (m', m'.OnMobileTriggerTimer)

/-- Environment step: the external preference `prefs::kEnabled` is written by
the rewards service, outside this component. -/
def MobileMonitor.SetRewardsEnabledPref (m : MobileMonitor) (b : Bool) :
    MobileMonitor :=
  { m with prefsEnabled := b }

/-- Environment step: the one-shot timer fires.  A `base::OneShotTimer` runs
its callback only if it is still pending and its deadline has been reached,
and becomes non-running once fired; `none` means no callback runs at `now`. -/
def MobileMonitor.FireTriggerTimer (m : MobileMonitor) (now : Nat) :
    Option (MobileMonitor × List Emission) :=
  match m.mobile_trigger_timer_ with
  | none => none
  | some deadline =>
      if deadline ≤ now then
        some ({ m with mobile_trigger_timer_ := none }, m.OnMobileTriggerTimer)
      else
        none

/-- C1: Desktop variant — for every trigger kind `K` and elapsed time `d`, if
`RecordPanelTrigger K` at time `t` is followed by `RecordRewardsEnable` at
time `t + d` with no intervening operation, the enabled-source enum histogram
receives an attribution of `K` iff `d ≤ kMaxEnabledCauseTriggerTime`
(1 minute), and receives nothing when `d` exceeds that window. -/
theorem desktop_attribution_iff_within_window (m : DesktopMonitor)
    (K : PanelTrigger) (t d : Nat) :
    enabledSourceAttributions
        (((m.RecordPanelTrigger K t).1.RecordRewardsEnable (t + d)).2)
      = if d ≤ kMaxEnabledCauseTriggerTime then [K] else [] := by
  by_cases h : d ≤ kMaxEnabledCauseTriggerTime
  · simp [DesktopMonitor.RecordPanelTrigger, DesktopMonitor.RecordRewardsEnable,
      enabledSourceAttributions, Nat.add_sub_cancel_left, h, Nat.not_lt.mpr h]
  · simp [DesktopMonitor.RecordPanelTrigger, DesktopMonitor.RecordRewardsEnable,
      enabledSourceAttributions, Nat.add_sub_cancel_left, h, Nat.lt_of_not_le h]

/-- C5: Desktop variant — every `RecordRewardsEnable` call emits the sentinel
`INT_MAX - 1` into the toolbar-trigger histogram as its first emission, before
the attribution check; whatever follows is only enabled-source attribution. -/
theorem enable_always_suppresses_toolbar_first (m : DesktopMonitor)
    (now : Nat) :
    (m.RecordRewardsEnable now).2
      = Emission.linear kToolbarButtonTriggerHistogramName (INT_MAX - 1) 2
        :: (enabledSourceAttributions ((m.RecordRewardsEnable now).2)).map
            (Emission.enum kEnabledSourceHistogramName) := by
  cases h : m.last_trigger_ with
  | none =>
      simp [DesktopMonitor.RecordRewardsEnable, enabledSourceAttributions, h]
  | some trigger =>
      by_cases h2 :
          now - m.last_trigger_time_ > kMaxEnabledCauseTriggerTime
      · simp [DesktopMonitor.RecordRewardsEnable, enabledSourceAttributions,
          h, h2]
      · simp [DesktopMonitor.RecordRewardsEnable, enabledSourceAttributions,
          h, h2]

/-- C3: Desktop variant — `RecordPanelTrigger A`, then `RecordPanelTrigger B`,
then `RecordRewardsEnable` within the attribution window of `B` attributes to
`B` and never to `A`: each trigger overwrites the single pending slot. -/
theorem latest_trigger_wins (m : DesktopMonitor) (A B : PanelTrigger)
    (t₁ t₂ t₃ : Nat) (h : t₃ - t₂ ≤ kMaxEnabledCauseTriggerTime) :
    enabledSourceAttributions
        ((((m.RecordPanelTrigger A t₁).1.RecordPanelTrigger
            B t₂).1.RecordRewardsEnable t₃).2)
      = [B]
    ∧ (A ≠ B →
        Emission.enum kEnabledSourceHistogramName A ∉
          (((m.RecordPanelTrigger A t₁).1.RecordPanelTrigger
              B t₂).1.RecordRewardsEnable t₃).2) := by
  constructor
  · simp [DesktopMonitor.RecordPanelTrigger,
      DesktopMonitor.RecordRewardsEnable, enabledSourceAttributions,
      Nat.not_lt.mpr h]
  · intro hAB
    simp [DesktopMonitor.RecordPanelTrigger,
      DesktopMonitor.RecordRewardsEnable, Nat.not_lt.mpr h, hAB]

/-- Witness for C3 at concrete inputs: triggers `kInlineTip` then
`kToolbarButton` at time 0, enable at time 0. -/
theorem latest_trigger_wins_witness :
    ((0 : Nat) - 0 ≤ kMaxEnabledCauseTriggerTime)
    ∧ enabledSourceAttributions
        ((((DesktopMonitor.init.RecordPanelTrigger
              PanelTrigger.kInlineTip 0).1.RecordPanelTrigger
            PanelTrigger.kToolbarButton 0).1.RecordRewardsEnable 0).2)
      = [PanelTrigger.kToolbarButton] :=
  ⟨by decide,
    (latest_trigger_wins DesktopMonitor.init PanelTrigger.kInlineTip
      PanelTrigger.kToolbarButton 0 0 0 (by decide)).1⟩

/-- C4: Desktop variant — a `RecordRewardsEnable` call that makes an
attribution clears both `last_trigger_` and `last_trigger_time_`, so an
immediately following `RecordRewardsEnable` (at any time) attributes
nothing. -/
theorem successful_attribution_clears_state (m : DesktopMonitor)
    (now now' : Nat)
    (h : enabledSourceAttributions ((m.RecordRewardsEnable now).2) ≠ []) :
    (m.RecordRewardsEnable now).1.last_trigger_ = none
    ∧ (m.RecordRewardsEnable now).1.last_trigger_time_ = 0
    ∧ enabledSourceAttributions
        (((m.RecordRewardsEnable now).1.RecordRewardsEnable now').2) = [] := by
  cases hl : m.last_trigger_ with
  | none =>
      exact absurd
        (by simp [DesktopMonitor.RecordRewardsEnable,
          enabledSourceAttributions, hl]) h
  | some trigger =>
      by_cases h2 : now - m.last_trigger_time_ > kMaxEnabledCauseTriggerTime
      · exact absurd
          (by simp [DesktopMonitor.RecordRewardsEnable,
            enabledSourceAttributions, hl, h2]) h
      · refine ⟨?_, ?_, ?_⟩ <;>
          simp [DesktopMonitor.RecordRewardsEnable,
            enabledSourceAttributions, hl, h2]

/-- Witness for C4: a monitor holding trigger `kNTP` recorded at time 0,
enabled at time 0, then enabled again at time 5. -/
theorem successful_attribution_clears_state_witness :
    ((⟨some PanelTrigger.kNTP, 0⟩ :
        DesktopMonitor).RecordRewardsEnable 0).1.last_trigger_ = none
    ∧ ((⟨some PanelTrigger.kNTP, 0⟩ :
        DesktopMonitor).RecordRewardsEnable 0).1.last_trigger_time_ = 0
    ∧ enabledSourceAttributions
        ((((⟨some PanelTrigger.kNTP, 0⟩ :
            DesktopMonitor).RecordRewardsEnable 0).1.RecordRewardsEnable
          5).2) = [] :=
  successful_attribution_clears_state ⟨some PanelTrigger.kNTP, 0⟩ 0 5
    (by decide)

/-- C10: Desktop variant — a `RecordRewardsEnable` call that makes no
attribution (no pending trigger, or the pending trigger is older than the
window) leaves both state fields unchanged, and a stale trigger can never be
attributed by any later `RecordRewardsEnable`, since elapsed time only
grows. -/
theorem no_attribution_leaves_state_unchanged (m : DesktopMonitor) (now : Nat)
    (h : m.last_trigger_ = none ∨
      now - m.last_trigger_time_ > kMaxEnabledCauseTriggerTime) :
    (m.RecordRewardsEnable now).1 = m
    ∧ ∀ now', now ≤ now' →
        enabledSourceAttributions
          (((m.RecordRewardsEnable now).1.RecordRewardsEnable now').2)
          = [] := by
  cases hl : m.last_trigger_ with
  | none =>
      refine ⟨by simp [DesktopMonitor.RecordRewardsEnable, hl], ?_⟩
      intro now' _
      simp [DesktopMonitor.RecordRewardsEnable, hl, enabledSourceAttributions]
  | some trigger =>
      have h2 : now - m.last_trigger_time_ > kMaxEnabledCauseTriggerTime := by
        rcases h with h | h
        · rw [hl] at h
          exact absurd h (by simp)
        · exact h
      have h3 : ∀ now', now ≤ now' →
          now' - m.last_trigger_time_ > kMaxEnabledCauseTriggerTime := by
        intro now' hle
        exact lt_of_lt_of_le h2 (Nat.sub_le_sub_right hle _)
      refine ⟨by simp [DesktopMonitor.RecordRewardsEnable, hl, h2], ?_⟩
      intro now' hle
      simp [DesktopMonitor.RecordRewardsEnable, hl, h2, h3 now' hle,
        enabledSourceAttributions]

/-- Witness for C10: a trigger recorded at time 0 is stale at time
60000001 (one microsecond past the window); the enable leaves the state
intact and a later enable at 60000002 still attributes nothing. -/
theorem no_attribution_leaves_state_unchanged_witness :
    ((⟨some PanelTrigger.kToolbarButton, 0⟩ :
        DesktopMonitor).RecordRewardsEnable 60000001).1
      = ⟨some PanelTrigger.kToolbarButton, 0⟩
    ∧ enabledSourceAttributions
        ((((⟨some PanelTrigger.kToolbarButton, 0⟩ :
            DesktopMonitor).RecordRewardsEnable
          60000001).1.RecordRewardsEnable 60000002).2) = [] :=
  ⟨(no_attribution_leaves_state_unchanged _ _ (Or.inr (by decide))).1,
   (no_attribution_leaves_state_unchanged _ _ (Or.inr (by decide))).2
     60000002 (by decide)⟩

/-- C2 counterexample: the sentinel "suppressed" emission does not use
`exclusiveUpperBound - 2` of the receiving metric.  In
`RecordNoWalletCreatedForAllMetrics`, the tips-sent emission has exclusive
upper bound 3 but carries the value 2147483646, which differs from
`3 - 2 = 1`. -/
theorem suppressed_sentinel_counterexample :
    RecordNoWalletCreatedForAllMetrics.head?
      = some (Emission.linear kTipsSentHistogramName 2147483646 3)
    ∧ (2147483646 : Nat) ≠ 3 - 2 :=
  ⟨rfl, by decide⟩

/-- C2 amended: every sentinel "suppressed" emission (the toolbar-trigger
suppression in `RecordRewardsEnable`, and the tips-sent and
auto-contributions suppressions in `RecordNoWalletCreatedForAllMetrics`) uses
the fixed value `INT_MAX - 1 = 2 ^ 31 - 2`, independent of the receiving
metric's exclusive upper bound (2 or 3). -/
theorem suppressed_sentinel_is_int_max_minus_one (m : DesktopMonitor)
    (now : Nat) :
    ((m.RecordRewardsEnable now).2).head?
      = some (Emission.linear kToolbarButtonTriggerHistogramName
          (INT_MAX - 1) 2)
    ∧ RecordNoWalletCreatedForAllMetrics
      = [Emission.linear kTipsSentHistogramName (INT_MAX - 1) 3,
         Emission.linear kAutoContributionsStateHistogramName (INT_MAX - 1) 2]
    ∧ INT_MAX - 1 = 2 ^ 31 - 2 := by
  refine ⟨?_, rfl, by decide⟩
  cases h : m.last_trigger_ with
  | none => simp [DesktopMonitor.RecordRewardsEnable, h]
  | some trigger =>
      by_cases h2 : now - m.last_trigger_time_ > kMaxEnabledCauseTriggerTime
      · simp [DesktopMonitor.RecordRewardsEnable, h, h2]
      · simp [DesktopMonitor.RecordRewardsEnable, h, h2]

/-- C6: Mobile variant — `RecordPanelTrigger` ignores its trigger-kind
argument; when the feature preference is enabled it increments the durable
weekly counter by exactly 1 and immediately flushes the bucketed weekly-count
metric; when disabled it leaves the counter alone, emits nothing, and
(re)starts the single deferred callback to fire one attribution window later,
which then emits the boolean enabled state as of firing time. -/
theorem mobile_trigger_behavior (m : MobileMonitor) (k k' : PanelTrigger)
    (now : Nat) :
    m.RecordPanelTrigger k now = m.RecordPanelTrigger k' now
    ∧ (m.prefsEnabled = true →
        (m.RecordPanelTrigger k now).1
          = { m with weeklySum := m.weeklySum + 1 }
        ∧ (m.RecordPanelTrigger k now).2
          = MobileMonitor.ReportMobilePanelTriggerCount
              { m with weeklySum := m.weeklySum + 1 })
    ∧ (m.prefsEnabled = false →
        (m.RecordPanelTrigger k now).1
          = { m with
              mobile_trigger_timer_ := some (now + kMaxEnabledCauseTriggerTime) }
        ∧ (m.RecordPanelTrigger k now).2 = []
        ∧ ∀ b : Bool,
            ((m.RecordPanelTrigger k now).1.SetRewardsEnabledPref
                b).FireTriggerTimer (now + kMaxEnabledCauseTriggerTime)
              = some
                  ({ m with prefsEnabled := b, mobile_trigger_timer_ := none },
                   [Emission.boolean kMobileConversionHistogramName b])) := by
  refine ⟨rfl, ?_, ?_⟩
  · intro hp
    exact ⟨by simp [MobileMonitor.RecordPanelTrigger, hp],
      by simp [MobileMonitor.RecordPanelTrigger, hp]⟩
  · intro hp
    refine ⟨by simp [MobileMonitor.RecordPanelTrigger, hp],
      by simp [MobileMonitor.RecordPanelTrigger, hp], ?_⟩
    intro b
    simp [MobileMonitor.RecordPanelTrigger, hp,
      MobileMonitor.SetRewardsEnabledPref, MobileMonitor.FireTriggerTimer,
      MobileMonitor.OnMobileTriggerTimer]

/-- Witness for C6: with the feature enabled and weekly sum 4, a panel
trigger increments the counter to 5. -/
theorem mobile_trigger_behavior_witness :
    ((⟨true, 4, none⟩ : MobileMonitor).RecordPanelTrigger
        PanelTrigger.kInlineTip 0).1
      = (⟨true, 4 + 1, none⟩ : MobileMonitor) :=
  ((mobile_trigger_behavior ⟨true, 4, none⟩ PanelTrigger.kInlineTip
      PanelTrigger.kNTP 0).2.1 rfl).1

/-- C7: Mobile variant — `RecordRewardsEnable` cancels the pending deferred
callback (which therefore can never fire afterwards) and immediately emits
the boolean enabled-state exactly once; a trigger in the disabled state
followed by waiting out the full attribution window fires the callback,
emitting the enabled state as of firing time. -/
theorem mobile_enable_cancels_and_emits_once (m : MobileMonitor) :
    (m.RecordRewardsEnable).1 = { m with mobile_trigger_timer_ := none }
    ∧ (m.RecordRewardsEnable).2
      = [Emission.boolean kMobileConversionHistogramName m.prefsEnabled]
    ∧ (∀ now, (m.RecordRewardsEnable).1.FireTriggerTimer now = none)
    ∧ (m.prefsEnabled = false → ∀ (k : PanelTrigger) (t : Nat) (b : Bool),
        ((m.RecordPanelTrigger k t).1.SetRewardsEnabledPref
            b).FireTriggerTimer (t + kMaxEnabledCauseTriggerTime)
          = some
              ({ m with prefsEnabled := b, mobile_trigger_timer_ := none },
               [Emission.boolean kMobileConversionHistogramName b])) := by
  refine ⟨rfl, rfl, fun now => rfl, ?_⟩
  intro hp k t b
  simp [MobileMonitor.RecordPanelTrigger, hp,
    MobileMonitor.SetRewardsEnabledPref, MobileMonitor.FireTriggerTimer,
    MobileMonitor.OnMobileTriggerTimer]

/-- Witness for C7: a disabled monitor with a pending callback; enabling
emits `false` once, and a separate trigger-then-wait run fires with the
enabled state at firing time. -/
theorem mobile_enable_cancels_and_emits_once_witness :
    ((⟨false, 2, some 99⟩ : MobileMonitor).RecordRewardsEnable).2
      = [Emission.boolean kMobileConversionHistogramName false]
    ∧ ((((⟨false, 2, some 99⟩ : MobileMonitor).RecordPanelTrigger
          PanelTrigger.kNTP 7).1.SetRewardsEnabledPref
        true).FireTriggerTimer (7 + kMaxEnabledCauseTriggerTime))
      = some (⟨true, 2, none⟩,
          [Emission.boolean kMobileConversionHistogramName true]) :=
  ⟨(mobile_enable_cancels_and_emits_once ⟨false, 2, some 99⟩).2.1,
   (mobile_enable_cancels_and_emits_once ⟨false, 2, some 99⟩).2.2.2 rfl
     PanelTrigger.kNTP 7 true⟩

/-- C8: Mobile variant — the weekly-count flush emits nothing when the
rolling sum is 0, and otherwise emits the bucket index equal to the count of
thresholds ≤ the sum over `[5, 10, 50]`; in particular sums 4, 5, 49, 50 emit
buckets 0, 1, 2, 3. -/
theorem weekly_flush_bucketing (m : MobileMonitor) :
    (m.weeklySum = 0 → m.ReportMobilePanelTriggerCount = [])
    ∧ (m.weeklySum ≠ 0 → m.ReportMobilePanelTriggerCount
        = [Emission.linear kMobilePanelCountHistogramName
            ((kMobilePanelCountBuckets.filter
                (fun t => t ≤ m.weeklySum)).length) 4])
    ∧ (⟨true, 4, none⟩ : MobileMonitor).ReportMobilePanelTriggerCount
      = [Emission.linear kMobilePanelCountHistogramName 0 4]
    ∧ (⟨true, 5, none⟩ : MobileMonitor).ReportMobilePanelTriggerCount
      = [Emission.linear kMobilePanelCountHistogramName 1 4]
    ∧ (⟨true, 49, none⟩ : MobileMonitor).ReportMobilePanelTriggerCount
      = [Emission.linear kMobilePanelCountHistogramName 2 4]
    ∧ (⟨true, 50, none⟩ : MobileMonitor).ReportMobilePanelTriggerCount
      = [Emission.linear kMobilePanelCountHistogramName 3 4] := by
  refine ⟨?_, ?_, by decide, by decide, by decide, by decide⟩
  · intro h
    simp [MobileMonitor.ReportMobilePanelTriggerCount, h]
  · intro h
    simp [MobileMonitor.ReportMobilePanelTriggerCount, h,
      RecordToHistogramBucket, bucketIndexFromThresholds,
      kMobilePanelCountBuckets]

/-- Witness for C8: a monitor whose rolling sum is 0 flushes nothing. -/
theorem weekly_flush_bucketing_witness :
    (⟨true, 0, none⟩ : MobileMonitor).ReportMobilePanelTriggerCount = [] :=
  (weekly_flush_bucketing ⟨true, 0, none⟩).1 rfl

/-- C9 counterexample: with thresholds `[0, 1, 3]` and the spec's threshold
semantics (bucket = count of thresholds ≤ value), a tip count of 0 is emitted
as bucket 1, not bucket 0 as the claim states. -/
theorem tips_sent_zero_maps_to_bucket_one :
    RecordTipsSent 0 = [Emission.linear kTipsSentHistogramName 1 4]
    ∧ (1 : Nat) ≠ 0 :=
  ⟨rfl, by decide⟩

/-- C9 amended: `RecordTipsSent` emits, for tip count `n`, the bucket equal
to the number of thresholds in `[0, 1, 3]` that are ≤ `n`, so counts
0, 1, 2, 3, 4 map to buckets 1, 2, 2, 3, 3 respectively. -/
theorem tips_sent_bucketing (n : Nat) :
    RecordTipsSent n
      = [Emission.linear kTipsSentHistogramName
          ((kTipsSentBuckets.filter (fun t => t ≤ n)).length) 4]
    ∧ RecordTipsSent 0 = [Emission.linear kTipsSentHistogramName 1 4]
    ∧ RecordTipsSent 1 = [Emission.linear kTipsSentHistogramName 2 4]
    ∧ RecordTipsSent 2 = [Emission.linear kTipsSentHistogramName 2 4]
    ∧ RecordTipsSent 3 = [Emission.linear kTipsSentHistogramName 3 4]
    ∧ RecordTipsSent 4 = [Emission.linear kTipsSentHistogramName 3 4] := by
  refine ⟨?_, by decide, by decide, by decide, by decide, by decide⟩
  simp [RecordTipsSent, RecordToHistogramBucket, bucketIndexFromThresholds,
    kTipsSentBuckets]

end BraveRewardsP3A
